import Mathlib

/-!
Verification development for the ka9q-radio control plane
(`src/radio_status.c`) and the CWSL WebSDR frontend driver
(`cwsl_websdr.c`).

Numeric conventions of the embedding:
* C `float`/`double` values are modelled as `ℚ`.  Every handler in the C
  decoder guards its value with `isfinite` and skips the tag otherwise, so a
  non-finite decoded value is observationally the same as an absent tag; the
  tag list therefore carries only finite (rational) values.
* C `int` is modelled as `ℤ` where negative values matter and as `ℕ` where the
  code treats the value as unsigned.
* Transcendental helpers from `misc.h` (`dB2power`, `dB2voltage`, `power2dB`,
  `voltage2dB`, `log1p`) and repository functions that are not part of the
  given sources (`round_samprate`, `pt_from_info`, the preset table) are kept
  abstract in an environment record `Env`; theorems quantify over them.
-/

namespace KA9Q

/-- Demodulator indices, from the `demod_type` enumeration: the spec (§3)
lists `demod_type ∈ {LINEAR, FM, WFM, SPECT}` in this order. -/
def LINEAR_DEMOD : ℕ := 0

/-- FM demodulator index. -/
def FM_DEMOD : ℕ := 1

/-- Wideband FM demodulator index. -/
def WFM_DEMOD : ℕ := 2

/-- Spectrum-analyzer demodulator index. -/
def SPECT_DEMOD : ℕ := 3

/-- Number of demodulator types (`N_DEMOD`). -/
def N_DEMOD : ℕ := 4

/-- Modelled from the spec: output encodings are an enumeration with
`NO_ENCODING` first and `UNUSED_ENCODING` one past the last valid entry; the
header defining the numeric values is not among the given sources.  Only the
distinctness of `OPUS` and the range bounds matter to the code under study. -/
def NO_ENCODING : ℕ := 0

/-- The Opus encoding tag (see `NO_ENCODING`). -/
def OPUS : ℕ := 5

/-- One past the last valid encoding (see `NO_ENCODING`). -/
def UNUSED_ENCODING : ℕ := 7

/-- The set of output sample rates Opus can handle, as enumerated twice in
`radio_status.c` (`OUTPUT_SAMPRATE` and `OUTPUT_ENCODING` handlers). -/
def opus_rate_ok (r : ℕ) : Bool :=
  r == 48000 || r == 24000 || r == 16000 || r == 12000 || r == 8000

/-- Modelled from the spec: default RTP data port used by `setport` in the
`OUTPUT_DATA_DEST_SOCKET` handler; the header with the constant is not among
the given sources and its value is immaterial to the claims. -/
def DEFAULT_RTP_PORT : ℕ := 5004

/-- Modelled from the spec: default status port (see `DEFAULT_RTP_PORT`). -/
def DEFAULT_STAT_PORT : ℕ := 5006

/-- A socket address: abstract host part plus a port, enough to model
`decode_socket`/`setport`. -/
structure SockAddr where
  addr : ℕ
  port : ℕ
deriving Repr, DecidableEq

/-- `setport`: overwrite the port of a socket address. -/
def setport (s : SockAddr) (p : ℕ) : SockAddr := { s with port := p }

/-- Modelled from the spec: a preset is "a named bundle of channel parameters
applied as a unit"; `loadpreset` (not among the given sources) "applies a
subset of command tags", overwriting the corresponding channel fields.  Each
field is optional: `none` means the preset leaves that field alone. -/
structure Preset where
  demod_type : Option ℕ := none
  samprate : Option ℕ := none
  low : Option ℚ := none
  high : Option ℚ := none
  kaiser_beta : Option ℚ := none
  shift : Option ℚ := none
  bin_count : Option ℤ := none
  bin_bw : Option ℚ := none

/-- One decoded TLV tag of a command packet, with its already-decoded value.
This is the tag-list level of the wire format: the byte-level
length-extension parsing is below the granularity of the claims. -/
inductive Tag where
  | eol
  | commandTag (v : ℤ)
  | outputSamprate (v : ℕ)
  | radioFrequency (v : ℚ)
  | firstLOFrequency (v : ℚ)
  | shiftFrequency (v : ℚ)
  | dopplerFrequency (v : ℚ)
  | dopplerFrequencyRate (v : ℚ)
  | lowEdge (v : ℚ)
  | highEdge (v : ℚ)
  | kaiserBeta (v : ℚ)
  | filter2KaiserBeta (v : ℚ)
  | preset (name : String)
  | demodType (v : ℤ)
  | independentSideband (v : Bool)
  | threshExtend (v : Bool)
  | headroom (v : ℚ)
  | agcEnable (v : Bool)
  | gain (v : ℚ)
  | agcHangtime (v : ℚ)
  | agcRecoveryRate (v : ℚ)
  | agcThreshold (v : ℚ)
  | pllEnable (v : Bool)
  | pllBw (v : ℚ)
  | pllSquare (v : Bool)
  | envelope (v : Bool)
  | snrSquelch (v : Bool)
  | outputChannels (v : ℕ)
  | squelchOpen (v : ℚ)
  | squelchClose (v : ℚ)
  | noncoherentBinBw (v : ℚ)
  | binCount (v : ℤ)
  | statusInterval (v : ℤ)
  | outputEncoding (v : ℕ)
  | opusBitRate (v : ℤ)
  | setopts (v : ℕ)
  | clearopts (v : ℕ)
  | rfAtten (v : ℚ)
  | rfGain (v : ℚ)
  | minpacket (v : ℕ)
  | filter2Blocking (v : ℕ)
  | outputDataDestSocket (s : SockAddr)
  | unknown

/-- RTP output stream state (`chan->output.rtp`). -/
structure RtpState where
  ssrc : ℕ
  type : ℕ
  timestamp : ℕ
  packets : ℕ

/-- Output section of a channel (`chan->output`). -/
structure OutputState where
  samprate : ℕ
  channels : ℕ
  encoding : ℕ
  gain : ℚ
  headroom : ℚ
  opus_bitrate : ℕ
  minpacket : ℕ
  rtp : RtpState
  dest_socket : SockAddr
  source_socket : SockAddr
  ttl : ℕ
  power : ℚ
  samples : ℕ
  errors : ℕ

/-- Main filter parameters (`chan->filter`). -/
structure FilterState where
  min_IF : ℚ
  max_IF : ℚ
  kaiser_beta : ℚ
  remainder : Option ℚ
  block_drops : ℕ

/-- Secondary filter parameters (`chan->filter2`). -/
structure Filter2State where
  kaiser_beta : ℚ
  isb : Bool
  blocking : ℕ
  in_ilen : ℕ
  in_impulse_length : ℕ

/-- Tuning state (`chan->tune`). -/
structure TuneState where
  freq : ℚ
  shift : ℚ
  doppler : ℚ
  doppler_rate : ℚ
  second_LO : ℚ

/-- Linear-demod state (`chan->linear`). -/
structure LinearState where
  agc : Bool
  hangtime : ℚ
  recovery_rate : ℚ
  threshold : ℚ
  env : Bool

/-- PLL state (`chan->pll`). -/
structure PllState where
  enable : Bool
  square : Bool
  lock : Bool
  loop_bw : ℚ
  cphase : ℚ
  snr : ℚ
  rotations : ℕ

/-- FM-demod state (`chan->fm`). -/
structure FmState where
  threshold : Bool
  stereo_enable : Bool
  tone_freq : ℚ
  tone_deviation : ℚ
  pdeviation : ℚ
  rate : ℚ
  gain : ℚ
  snr : ℚ

/-- Spectrum-analyzer state (`chan->spectrum`).  `bin_data` is a C pointer
into worker-owned memory: `none` models `NULL`; `some d` models a non-null
buffer, where `d i` is the value read at offset `i` (a C buffer read always
yields some float, even past the logical allocation). -/
structure SpectrumState where
  bin_bw : ℚ
  bin_count : ℤ
  bin_data : Option (ℕ → ℚ)

/-- Per-channel control/status bookkeeping (`chan->status`). -/
structure StatusCtl where
  tag : ℤ
  packets_in : ℕ
  packets_out : ℕ
  blocks_since_poll : ℕ
  output_interval : ℕ
  global_timer : ℕ
  command : Option (List Tag)
  dest_socket : SockAddr

/-- Signal estimators (`chan->sig`). -/
structure SigState where
  n0 : ℚ
  bb_power : ℚ
  foffset : ℚ

/-- A demodulator channel (`struct channel`), restricted to the fields read
or written by `radio_status.c`. -/
structure Channel where
  output : OutputState
  filter : FilterState
  filter2 : Filter2State
  tune : TuneState
  linear : LinearState
  pll : PllState
  fm : FmState
  spectrum : SpectrumState
  status : StatusCtl
  sig : SigState
  demod_type : ℕ
  snr_squelch_enable : Bool
  squelch_open : ℚ
  squelch_close : ℚ
  options : ℕ
  lifetime : ℕ
  preset : String
  inuse : Bool
  tp1 : Option ℚ
  tp2 : Option ℚ

/-- The frontend descriptor (`struct frontend`), restricted to the fields
read by `radio_status.c` and `cwsl_websdr.c`. -/
structure Frontend where
  description : String
  samples : ℕ
  samprate : ℕ
  isreal : Bool
  calibrate : ℚ
  rf_gain : ℚ
  rf_atten : ℚ
  rf_level_cal : ℚ
  rf_agc : ℕ
  lna_gain : ℤ
  mixer_gain : ℤ
  if_gain : ℤ
  min_IF : ℚ
  max_IF : ℚ
  bitspersample : ℕ
  frequency : ℚ
  if_power : ℚ
  overranges : ℕ
  samp_since_over : ℕ
  in_ilen : ℕ
  in_impulse_length : ℕ
  metadata_dest_socket : SockAddr
  lock : Bool

/-- Environment of repository functions that `radio_status.c` calls but whose
definitions are outside the given sources, kept abstract (see file header).
`spectrum_poll` is modelled from the spec: "spectrum_poll() ... Update the
spectral data (wide bins only)" — it refreshes the contents of the bin buffer
and touches nothing else; the new contents are an arbitrary function of the
channel.  `channel_idle_timeout` is the global `Channel_idle_timeout`. -/
structure Env where
  dB2power : ℚ → ℚ
  dB2voltage : ℚ → ℚ
  power2dB : ℚ → ℚ
  voltage2dB : ℚ → ℚ
  log1p : ℚ → ℚ
  round_samprate : ℕ → ℕ
  pt_from_info : ℕ → ℕ → ℕ → ℕ
  presetTable : String → Option Preset
  channel_idle_timeout : ℕ
  spectrum_poll : Channel → ℕ → ℚ
  scale_ADpower2FS : Frontend → ℚ
  gps_time : ℤ
  source_socket : SockAddr
  create_chan : ℕ → Option Channel
  frontend : Frontend

/-- Modelled from the spec: `set_freq(chan,f)` sets the channel's target
frequency to `f` ("`f` for the channel's target frequency when within tuning
range"); its definition is not among the given sources.  The LO/bin-shift
recomputation it performs touches fields outside this model. -/
def set_freq (chan : Channel) (f : ℚ) : Channel :=
  { chan with tune.freq := f }

/-- Modelled from the spec: `loadpreset` applies a named parameter bundle,
overwriting the corresponding channel fields ("they overwrite fields but the
subsequent command in the same packet may override them back"); its
definition is not among the given sources.  Returns `none` when the preset
name is not in the table (nonzero return in C). -/
def loadpreset (tbl : String → Option Preset) (chan : Channel) (name : String) :
    Option Channel :=
  match tbl name with
  | none => none
  | some p =>
    some { chan with
      demod_type := p.demod_type.getD chan.demod_type
      output.samprate := p.samprate.getD chan.output.samprate
      filter.min_IF := p.low.getD chan.filter.min_IF
      filter.max_IF := p.high.getD chan.filter.max_IF
      filter.kaiser_beta := p.kaiser_beta.getD chan.filter.kaiser_beta
      tune.shift := p.shift.getD chan.tune.shift
      spectrum.bin_count := p.bin_count.getD chan.spectrum.bin_count
      spectrum.bin_bw := p.bin_bw.getD chan.spectrum.bin_bw }

/-- Local state of one run of `decode_radio_commands_with_source`: the channel
plus the function's local variables (`restart_needed`, `new_filter_needed`,
the override slots and `has_overrides`).  The C sentinels `NAN` (for the two
edges and `bin_bw`) are modelled as `none`; `override_bin_count` keeps the
C sentinel `-1` literally. -/
structure DecodeSt where
  chan : Channel
  restart_needed : Bool
  new_filter_needed : Bool
  override_low_edge : Option ℚ
  override_high_edge : Option ℚ
  override_bin_count : ℤ
  override_bin_bw : Option ℚ
  has_overrides : Bool

/-- One iteration of the tag `switch` in `decode_radio_commands_with_source`.
Cases that only touch the frontend hardware (`FIRST_LO_FREQUENCY` via
`set_first_LO`, `RF_ATTEN`, `RF_GAIN`) or only flush buffered output
(`flush_output`) leave the modelled channel state unchanged. -/
def applyTag (env : Env) (s : DecodeSt) : Tag → DecodeSt
  | .eol => s
  | .commandTag v => { s with chan.status.tag := v }
  | .outputSamprate v =>
    let new_sample_rate := env.round_samprate v
    if new_sample_rate ≠ s.chan.output.samprate then
      if s.chan.output.encoding ≠ OPUS ∨ opus_rate_ok new_sample_rate then
        { s with
          chan.output.samprate := new_sample_rate
          chan.output.rtp.type :=
            env.pt_from_info new_sample_rate s.chan.output.channels
              s.chan.output.encoding
          restart_needed := true }
      else s
    else s
  | .radioFrequency v => { s with chan := set_freq s.chan |v| }
  | .firstLOFrequency _ => s
  | .shiftFrequency v => { s with chan.tune.shift := v }
  | .dopplerFrequency v => { s with chan.tune.doppler := v }
  | .dopplerFrequencyRate v => { s with chan.tune.doppler_rate := v }
  | .lowEdge f =>
    let s := { s with override_low_edge := some f, has_overrides := true }
    if s.chan.demod_type ≠ SPECT_DEMOD then
      { s with
        chan.filter.min_IF := max f (-(s.chan.output.samprate : ℚ) / 2)
        new_filter_needed := true }
    else s
  | .highEdge f =>
    let s := { s with override_high_edge := some f, has_overrides := true }
    if s.chan.demod_type ≠ SPECT_DEMOD then
      { s with
        chan.filter.max_IF := min f ((s.chan.output.samprate : ℚ) / 2)
        new_filter_needed := true }
    else s
  | .kaiserBeta f =>
    if s.chan.filter.kaiser_beta ≠ |f| then
      { s with chan.filter.kaiser_beta := |f|, new_filter_needed := true }
    else s
  | .filter2KaiserBeta f =>
    if s.chan.filter2.kaiser_beta ≠ |f| then
      { s with chan.filter2.kaiser_beta := |f|, new_filter_needed := true }
    else s
  | .preset name =>
    let s := { s with chan.preset := name }
    let old_type := s.chan.demod_type
    let old_samprate := s.chan.output.samprate
    let old_low := s.chan.filter.min_IF
    let old_high := s.chan.filter.max_IF
    let old_kaiser := s.chan.filter.kaiser_beta
    let old_shift := s.chan.tune.shift
    match loadpreset env.presetTable s.chan s.chan.preset with
    | none => s
    | some c =>
      let c :=
        if old_shift ≠ c.tune.shift then
          set_freq c (c.tune.freq + c.tune.shift - old_shift)
        else c
      let s := { s with chan := c }
      let s :=
        if c.filter.min_IF ≠ old_low ∨ c.filter.max_IF ≠ old_high ∨
            c.filter.kaiser_beta ≠ old_kaiser then
          { s with new_filter_needed := true }
        else s
      if c.demod_type ≠ old_type ∨ c.output.samprate ≠ old_samprate then
        { s with restart_needed := true }
      else s
  | .demodType i =>
    if 0 ≤ i ∧ i < (N_DEMOD : ℤ) ∧ i.toNat ≠ s.chan.demod_type then
      { s with chan.demod_type := i.toNat, restart_needed := true }
    else s
  | .independentSideband b =>
    if b ≠ s.chan.filter2.isb then
      { s with chan.filter2.isb := b, new_filter_needed := true }
    else s
  | .threshExtend b => { s with chan.fm.threshold := b }
  | .headroom f => { s with chan.output.headroom := env.dB2voltage (-|f|) }
  | .agcEnable b => { s with chan.linear.agc := b }
  | .gain f =>
    { s with
      chan.output.gain := env.dB2voltage f
      chan.linear.agc := false }
  | .agcHangtime f => { s with chan.linear.hangtime := |f| }
  | .agcRecoveryRate f =>
    { s with chan.linear.recovery_rate := env.dB2voltage |f| }
  | .agcThreshold f => { s with chan.linear.threshold := env.dB2voltage (-|f|) }
  | .pllEnable b => { s with chan.pll.enable := b }
  | .pllBw f => { s with chan.pll.loop_bw := |f| }
  | .pllSquare b => { s with chan.pll.square := b }
  | .envelope b => { s with chan.linear.env := b }
  | .snrSquelch b => { s with chan.snr_squelch_enable := b }
  | .outputChannels i =>
    if i ≠ 1 ∧ i ≠ 2 then s
    else if s.chan.demod_type = WFM_DEMOD then
      { s with chan.fm.stereo_enable := i == 2 }
    else if i ≠ s.chan.output.channels then
      { s with
        chan.output.channels := i
        chan.output.rtp.type :=
          env.pt_from_info s.chan.output.samprate i s.chan.output.encoding }
    else s
  | .squelchOpen x =>
    { s with
      chan.squelch_open := if x ≤ -999 then 0 else |env.dB2power x| }
  | .squelchClose x =>
    { s with
      chan.squelch_close := if x ≤ -999 then 0 else |env.dB2power x| }
  | .noncoherentBinBw x =>
    { s with override_bin_bw := some x, has_overrides := true }
  | .binCount x =>
    if x > 0 then
      { s with override_bin_count := x, has_overrides := true }
    else s
  | .statusInterval x =>
    if x ≥ 0 then { s with chan.status.output_interval := x.toNat } else s
  | .outputEncoding e =>
    if e ≠ s.chan.output.encoding ∧ NO_ENCODING ≤ e ∧ e < UNUSED_ENCODING then
      let s := { s with chan.output.encoding := e }
      let s :=
        if e = OPUS ∧ ¬ opus_rate_ok s.chan.output.samprate then
          { s with chan.output.samprate := 48000, restart_needed := true }
        else s
      { s with
        chan.output.rtp.type :=
          env.pt_from_info s.chan.output.samprate s.chan.output.channels
            s.chan.output.encoding }
    else s
  | .opusBitRate v => { s with chan.output.opus_bitrate := v.natAbs }
  | .setopts v => { s with chan.options := s.chan.options ||| v }
  | .clearopts v => { s with chan.options := Nat.ldiff s.chan.options v }
  | .rfAtten _ => s
  | .rfGain _ => s
  | .minpacket i =>
    if i ≤ 4 ∧ i ≠ s.chan.output.minpacket then
      { s with chan.output.minpacket := i }
    else s
  | .filter2Blocking i =>
    let i := if i > 10 then 10 else i
    if i ≠ s.chan.filter2.blocking then
      { s with chan.filter2.blocking := i, new_filter_needed := true }
    else s
  | .outputDataDestSocket sock =>
    let dest := setport sock DEFAULT_RTP_PORT
    { s with
      chan.output.dest_socket := dest
      chan.status.dest_socket := setport dest DEFAULT_STAT_PORT }
  | .unknown => s

/-- The tag loop of `decode_radio_commands_with_source`: tags are applied in
packet order; `EOL` stops the scan. -/
def processTags (env : Env) : DecodeSt → List Tag → DecodeSt
  | s, [] => s
  | s, .eol :: _ => s
  | s, t :: ts => processTags env (applyTag env s t) ts

/-- The filter-rebuild tail of the decoder (`new_filter_needed` branch):
`set_channel_filter` rebuilds the filter response from the parameter fields
(changing none of them; its definition is not among the given sources),
`set_freq(chan, chan->tune.freq)` re-tunes to the unchanged frequency, and
`chan->filter.remainder = NAN` forces re-init of the fine oscillator. -/
def finishFilter (chan : Channel) : Channel :=
  { set_freq chan chan.tune.freq with filter.remainder := none }

/-- The override-application section after the tag loop
(`radio_status.c:593-639`): only when something was saved and the channel is
a spectrum channel; `LOW_EDGE`/`HIGH_EDGE` overrides are informational only
(logged, no state change); `BIN_COUNT`/`BIN_BW` are applied when they differ
from the current values, setting `spectrum_params_changed`. -/
def applyOverrides (s : DecodeSt) : Channel × Bool :=
  if s.has_overrides ∧ s.chan.demod_type = SPECT_DEMOD then
    let step1 : Channel × Bool :=
      if s.override_bin_count > 0 ∧
          s.override_bin_count ≠ s.chan.spectrum.bin_count then
        ({ s.chan with spectrum.bin_count := s.override_bin_count }, true)
      else (s.chan, false)
    match s.override_bin_bw with
    | some b =>
      if b ≠ step1.1.spectrum.bin_bw then
        ({ step1.1 with spectrum.bin_bw := b }, true)
      else step1
    | none => step1
  else (s.chan, false)

/-- The prologue of `decode_radio_commands_with_source`
(`radio_status.c:165-191`): refresh the idle countdown only when a countdown
is running *and* the channel is tuned (`freq ≠ 0`), bump `packets_in`, and
initialize the local override state. -/
def initDecodeSt (env : Env) (chan : Channel) : DecodeSt :=
  let chan :=
    if chan.lifetime ≠ 0 ∧ chan.tune.freq ≠ 0 then
      { chan with lifetime := env.channel_idle_timeout }
    else chan
  let chan := { chan with status.packets_in := chan.status.packets_in + 1 }
  { chan := chan
    restart_needed := false
    new_filter_needed := false
    override_low_edge := none
    override_high_edge := none
    override_bin_count := -1
    override_bin_bw := none
    has_overrides := false }

/-- The epilogue of `decode_radio_commands_with_source`
(`radio_status.c:591-664`): apply the saved overrides, clear the preset name
on spectrum channels, and compute the boolean result (spectrum-params
changed for spectrum channels, else restart needed; the
`new_filter_needed` branch runs the filter rebuild). -/
def decodeFinish (s : DecodeSt) : Channel × Bool :=
  let c0 := (applyOverrides s).1
  let spectrum_params_changed := (applyOverrides s).2
  let c :=
    if c0.demod_type = SPECT_DEMOD then { c0 with preset := "" } else c0
  if c.demod_type = SPECT_DEMOD ∧ spectrum_params_changed then (c, true)
  else if s.restart_needed then (c, true)
  else if s.new_filter_needed then (finishFilter c, false)
  else (c, false)

/-- `decode_radio_commands_with_source`: apply one command packet (as a tag
list) to a channel.  Returns the updated channel and the boolean result of
the C function (restart needed for non-spectrum channels,
spectrum-parameters-changed for spectrum channels). -/
def decode_radio_commands_with_source (env : Env) (chan : Channel)
    (tags : List Tag) : Channel × Bool :=
  decodeFinish (processTags env (initDecodeSt env chan) tags)

/-- Modelled from the spec: the channel registry lookup `lookup_chan` maps an
ssrc to the in-use channel carrying it ("ssrc → channel is bijective while
`inuse == true`"); its definition is not among the given sources.  Returns
the index of the first in-use channel with the given ssrc. -/
def lookup_chan (channels : List Channel) (ssrc : ℕ) : Option ℕ :=
  channels.findIdx? fun c => c.inuse && c.output.rtp.ssrc == ssrc

/-- The single-slot command queueing of `radio_status` (existing-channel
branch): if the slot is occupied the new command is dropped (`oops`,
`FREE(cmd)`) and the channel is unchanged; otherwise the command bytes are
stored in the slot. -/
def queue_command (chan : Channel) (cmd : List Tag) : Channel :=
  match chan.status.command with
  | some _ => chan
  | none => { chan with status.command := some cmd }

/-- The body of the `0xffffffff` broadcast arm of `radio_status`, as the C
`for` loop over `Channel_list`: each in-use channel with a non-reserved ssrc
gets `status.global_timer = (i >> 1) + 1`. -/
def stagger_aux : ℕ → List Channel → List Channel
  | _, [] => []
  | i, c :: cs =>
    (if c.inuse ∧ c.output.rtp.ssrc ≠ 0xffffffff ∧ c.output.rtp.ssrc ≠ 0 then
      { c with status.global_timer := i / 2 + 1 }
    else c) :: stagger_aux (i + 1) cs

/-- Broadcast staggering over the whole channel list, indices from 0. -/
def stagger_update (channels : List Channel) : List Channel :=
  stagger_aux 0 channels

/-- One field of an emitted STATUS packet, mirroring the `encode_*` calls of
`encode_radio_status_ex` in `radio_status.c` (one constructor per emitted
tag, carrying the encoded value). -/
inductive SField where
  | outputSsrc (v : ℕ)
  | commandTag (v : ℤ)
  | cmdCnt (v : ℕ)
  | description (s : String)
  | rtpTimesnap (v : ℕ)
  | statusDestSocket (s : SockAddr)
  | gpsTime (v : ℤ)
  | inputSamples (v : ℕ)
  | inputSamprate (v : ℕ)
  | feIsreal (v : Bool)
  | calibrate (v : ℚ)
  | rfGain (v : ℚ)
  | rfAtten (v : ℚ)
  | rfLevelCal (v : ℚ)
  | rfAgc (v : ℕ)
  | lnaGain (v : ℤ)
  | mixerGain (v : ℤ)
  | ifGain (v : ℤ)
  | feLowEdge (v : ℚ)
  | feHighEdge (v : ℚ)
  | adBitsPerSample (v : ℕ)
  | radioFrequency (v : ℚ)
  | firstLOFrequency (v : ℚ)
  | secondLOFrequency (v : ℚ)
  | filterBlocksize (v : ℕ)
  | filterFirLength (v : ℕ)
  | filterDrops (v : ℕ)
  | ifPower (v : ℚ)
  | adOver (v : ℕ)
  | samplesSinceOver (v : ℕ)
  | noiseDensity (v : ℚ)
  | demodTypeF (v : ℕ)
  | presetF (s : String)
  | snrSquelch (b : Bool)
  | pllEnable (b : Bool)
  | freqOffset (v : ℚ)
  | pllLock (b : Bool)
  | pllSquare (b : Bool)
  | pllPhase (v : ℚ)
  | pllBw (v : ℚ)
  | pllWraps (v : ℕ)
  | pllSnr (v : ℚ)
  | squelchOpen (v : ℚ)
  | squelchClose (v : ℚ)
  | envelope (b : Bool)
  | shiftFrequency (v : ℚ)
  | agcEnable (b : Bool)
  | agcHangtime (v : ℚ)
  | agcThreshold (v : ℚ)
  | agcRecoveryRate (v : ℚ)
  | independentSideband (b : Bool)
  | plTone (v : ℚ)
  | plDeviation (v : ℚ)
  | threshExtend (b : Bool)
  | peakDeviation (v : ℚ)
  | deemphTc (v : ℚ)
  | deemphGain (v : ℚ)
  | fmSnr (v : ℚ)
  | noncoherentBinBw (v : ℚ)
  | binCount (v : ℤ)
  | binData (v : List ℚ)
  | lowEdge (v : ℚ)
  | highEdge (v : ℚ)
  | outputSamprate (v : ℕ)
  | outputDataPackets (v : ℕ)
  | kaiserBeta (v : ℚ)
  | filter2F (v : ℕ)
  | filter2Blocksize (v : ℕ)
  | filter2FirLength (v : ℕ)
  | filter2KaiserBeta (v : ℚ)
  | basebandPower (v : ℚ)
  | outputLevel (v : ℚ)
  | gainF (v : ℚ)
  | outputSamples (v : ℕ)
  | opusBitRate (v : ℕ)
  | headroomF (v : ℚ)
  | doppler (v : ℚ)
  | dopplerRate (v : ℚ)
  | outputChannels (v : ℕ)
  | outputDataSourceSocket (s : SockAddr)
  | outputDataDestSocket (s : SockAddr)
  | outputTtl (v : ℕ)
  | outputMetadataPackets (v : ℕ)
  | rtpPt (v : ℕ)
  | statusInterval (v : ℕ)
  | outputEncoding (v : ℕ)
  | minpacketF (v : ℕ)
  | tp1F (v : ℚ)
  | tp2F (v : ℚ)
  | blocksSincePoll (v : ℕ)
  | setopts (v : ℕ)
  | outputErrors (v : ℕ)
  | eol

/-- The all-modes head of `encode_radio_status_ex` (`radio_status.c:676-724`).
In C, `strlen(chan->preset)` is always below `sizeof(chan->preset)` for a
NUL-terminated buffer, so only positivity gates the `PRESET` field. -/
def statusHead (env : Env) (fe : Frontend) (chan : Channel) : List SField :=
  [.outputSsrc chan.output.rtp.ssrc,
   .commandTag chan.status.tag,
   .cmdCnt chan.status.packets_in] ++
  (if fe.description.length > 0 then [.description fe.description] else []) ++
  [.rtpTimesnap chan.output.rtp.timestamp,
   .statusDestSocket fe.metadata_dest_socket,
   .gpsTime env.gps_time,
   .inputSamples fe.samples,
   .inputSamprate fe.samprate,
   .feIsreal fe.isreal,
   .calibrate fe.calibrate,
   .rfGain fe.rf_gain,
   .rfAtten fe.rf_atten,
   .rfLevelCal fe.rf_level_cal,
   .rfAgc fe.rf_agc,
   .lnaGain fe.lna_gain,
   .mixerGain fe.mixer_gain,
   .ifGain fe.if_gain,
   .feLowEdge fe.min_IF,
   .feHighEdge fe.max_IF,
   .adBitsPerSample fe.bitspersample,
   .radioFrequency chan.tune.freq,
   .firstLOFrequency fe.frequency,
   .secondLOFrequency chan.tune.second_LO,
   .filterBlocksize fe.in_ilen,
   .filterFirLength fe.in_impulse_length,
   .filterDrops chan.filter.block_drops,
   .ifPower (env.power2dB (fe.if_power * env.scale_ADpower2FS fe)),
   .adOver fe.overranges,
   .samplesSinceOver fe.samp_since_over,
   .noiseDensity (env.power2dB chan.sig.n0),
   .demodTypeF chan.demod_type] ++
  (if chan.preset.length > 0 then [.presetF chan.preset] else [])

/-- The channel mutation performed inside the `SPECT_DEMOD` arm of
`encode_radio_status_ex`: `spectrum_poll(chan)` refreshes the bin data when
not explicitly skipped and `bin_data` is not `NULL`. -/
def spectPolledChan (env : Env) (chan : Channel) (skip_spectrum_poll : Bool) :
    Channel :=
  if chan.demod_type = SPECT_DEMOD ∧ ¬ skip_spectrum_poll ∧
      chan.spectrum.bin_data.isSome then
    { chan with spectrum.bin_data := some (env.spectrum_poll chan) }
  else chan

/-- The mode-specific switch of `encode_radio_status_ex`
(`radio_status.c:728-808`), emitted fields only (the `SPECT_DEMOD` channel
mutation is `spectPolledChan`).  In the `SPECT_DEMOD` arm,
`encode_vector(..., bin_data, bin_count)` emits exactly `bin_count` elements
read from the (post-poll) buffer, and nothing when `bin_data` is `NULL`. -/
def statusModeFields (env : Env) (chan : Channel) (skip_spectrum_poll : Bool) :
    List SField :=
  if chan.demod_type = LINEAR_DEMOD then
    [.snrSquelch chan.snr_squelch_enable,
     .pllEnable chan.pll.enable] ++
    (if chan.pll.enable then
       [.freqOffset chan.sig.foffset,
        .pllLock chan.pll.lock,
        .pllSquare chan.pll.square,
        .pllPhase chan.pll.cphase,
        .pllBw chan.pll.loop_bw,
        .pllWraps chan.pll.rotations,
        .pllSnr (env.power2dB chan.pll.snr)]
     else []) ++
    [.squelchOpen (env.power2dB chan.squelch_open),
     .squelchClose (env.power2dB chan.squelch_close),
     .envelope chan.linear.env,
     .shiftFrequency chan.tune.shift,
     .agcEnable chan.linear.agc] ++
    (if chan.linear.agc then
       [.agcHangtime chan.linear.hangtime,
        .agcThreshold (env.voltage2dB chan.linear.threshold),
        .agcRecoveryRate (env.voltage2dB chan.linear.recovery_rate)]
     else []) ++
    [.independentSideband chan.filter2.isb]
  else if chan.demod_type = FM_DEMOD then
    [.snrSquelch chan.snr_squelch_enable] ++
    (if chan.fm.tone_freq ≠ 0 then
       [.plTone chan.fm.tone_freq, .plDeviation chan.fm.tone_deviation]
     else []) ++
    [.freqOffset chan.sig.foffset,
     .squelchOpen (env.power2dB chan.squelch_open),
     .squelchClose (env.power2dB chan.squelch_close),
     .threshExtend chan.fm.threshold,
     .peakDeviation chan.fm.pdeviation,
     .deemphTc (-1 / (env.log1p (-chan.fm.rate) * chan.output.samprate)),
     .deemphGain (env.voltage2dB chan.fm.gain),
     .fmSnr (env.power2dB chan.fm.snr)]
  else if chan.demod_type = WFM_DEMOD then
    [.snrSquelch chan.snr_squelch_enable,
     .freqOffset chan.sig.foffset,
     .squelchOpen (env.power2dB chan.squelch_open),
     .squelchClose (env.power2dB chan.squelch_close),
     .threshExtend chan.fm.threshold,
     .peakDeviation chan.fm.pdeviation,
     .deemphTc (-1 / (env.log1p (-chan.fm.rate) * (48000 : ℚ))),
     .deemphGain (env.voltage2dB chan.fm.gain),
     .fmSnr (env.power2dB chan.fm.snr)]
  else if chan.demod_type = SPECT_DEMOD then
    [.noncoherentBinBw chan.spectrum.bin_bw,
     .binCount chan.spectrum.bin_count] ++
    (match (spectPolledChan env chan skip_spectrum_poll).spectrum.bin_data with
     | some d =>
       [.binData
         ((List.range
           (spectPolledChan env chan skip_spectrum_poll).spectrum.bin_count.toNat).map
           d)]
     | none => [])
  else []

/-- The channel mutation performed in the non-`SPECT` part of the tail of
`encode_radio_status_ex`: `getsockname` fills `chan->output.source_socket`
from the OS (value taken from the environment). -/
def statusTailChan (env : Env) (chan : Channel) : Channel :=
  if chan.demod_type ≠ SPECT_DEMOD then
    { chan with output.source_socket := env.source_socket }
  else chan

/-- The common tail of `encode_radio_status_ex` (`radio_status.c:810-867`),
emitted fields only (the `getsockname` mutation is `statusTailChan`; `chan`
here is the already-mutated channel, so `OUTPUT_DATA_SOURCE_SOCKET` reports
the refreshed socket). -/
def statusTailFields (env : Env) (chan : Channel) : List SField :=
  [.lowEdge chan.filter.min_IF, .highEdge chan.filter.max_IF] ++
  (if chan.demod_type ≠ SPECT_DEMOD then
    [.outputSamprate chan.output.samprate,
     .outputDataPackets chan.output.rtp.packets,
     .kaiserBeta chan.filter.kaiser_beta,
     .filter2F chan.filter2.blocking] ++
    (if chan.filter2.blocking ≠ 0 then
       [.filter2Blocksize chan.filter2.in_ilen,
        .filter2FirLength chan.filter2.in_impulse_length,
        .filter2KaiserBeta chan.filter2.kaiser_beta]
     else []) ++
    [.basebandPower (env.power2dB chan.sig.bb_power),
     .outputLevel (env.power2dB chan.output.power)] ++
    (if chan.demod_type = LINEAR_DEMOD then
       [.gainF (env.voltage2dB chan.output.gain)]
     else []) ++
    [.outputSamples chan.output.samples,
     .opusBitRate chan.output.opus_bitrate,
     .headroomF (env.voltage2dB chan.output.headroom),
     .doppler chan.tune.doppler,
     .dopplerRate chan.tune.doppler_rate,
     .outputChannels chan.output.channels,
     .outputDataSourceSocket chan.output.source_socket,
     .outputDataDestSocket chan.output.dest_socket,
     .outputTtl chan.output.ttl,
     .outputMetadataPackets chan.status.packets_out,
     .rtpPt chan.output.rtp.type,
     .statusInterval chan.status.output_interval,
     .outputEncoding chan.output.encoding,
     .minpacketF chan.output.minpacket]
  else []) ++
  (match chan.tp1 with | some v => [.tp1F v] | none => []) ++
  (match chan.tp2 with | some v => [.tp2F v] | none => []) ++
  [.blocksSincePoll chan.status.blocks_since_poll,
   .setopts chan.options,
   .outputErrors chan.output.errors,
   .eol]

/-- `encode_radio_status_ex`: encode the frontend and channel state as a
STATUS packet (field list), returning also the channel as mutated by the
encoder (spectrum poll, source-socket refresh). -/
def encode_radio_status_ex (env : Env) (fe : Frontend) (chan : Channel)
    (skip_spectrum_poll : Bool) : List SField × Channel :=
  let chan1 := spectPolledChan env chan skip_spectrum_poll
  let chan2 := statusTailChan env chan1
  (statusHead env fe chan ++ statusModeFields env chan skip_spectrum_poll ++
    statusTailFields env chan2, chan2)

/-- `send_radio_status_ex`: bump `packets_out`, encode, send (the datagram
itself is outside the model).  Returns the emitted field list and the
updated channel. -/
def send_radio_status_ex (env : Env) (fe : Frontend) (chan : Channel)
    (skip_spectrum_poll : Bool) : List SField × Channel :=
  let chan := { chan with status.packets_out := chan.status.packets_out + 1 }
  encode_radio_status_ex env fe chan skip_spectrum_poll

/-- `reset_radio_status`: reset the poll integrator. -/
def reset_radio_status (chan : Channel) : Channel :=
  { chan with status.blocks_since_poll := 0 }

/-- `start_demod` — modelled from the spec: starting the worker makes the
channel live ("A channel's worker thread exists iff `inuse == true`"); its
definition is not among the given sources. -/
def start_demod (chan : Channel) : Channel :=
  { chan with inuse := true }

/-- One iteration of the `radio_status` receive loop, given the ssrc already
extracted from the packet and the decoded tag list: the `switch(ssrc)` of
`radio_status.c:68-121`.  `ssrc = 0` drops the packet; `0xffffffff` staggers
status timers; otherwise the command is queued on an existing channel or a
channel is dynamically created, the command decoded, a status reply sent,
and the demod started (`create_chan` failure leaves everything unchanged). -/
def radio_status_step (env : Env) (channels : List Channel) (ssrc : ℕ)
    (cmd : List Tag) : List Channel :=
  if ssrc = 0 then channels
  else if ssrc = 0xffffffff then stagger_update channels
  else
    match lookup_chan channels ssrc with
    | some i =>
      match channels[i]? with
      | some c => channels.set i (queue_command c cmd)
      | none => channels
    | none =>
      match env.create_chan ssrc with
      | none => channels
      | some newc =>
        let newc :=
          { newc with
            output.rtp.type :=
              env.pt_from_info newc.output.samprate newc.output.channels
                newc.output.encoding }
        let dec := decode_radio_commands_with_source env newc cmd
        let c := (send_radio_status_ex env env.frontend dec.1 dec.2).2
        let c := reset_radio_status c
        let c := { c with status.global_timer := 0 }
        channels ++ [start_demod c]

/-- The `strncmp(response, RESP_OK, strlen(RESP_OK)) == 0` check of
`cwsl_websdr.c`: the response text begins with the two characters `OK`. -/
def respOK (r : List Char) : Bool :=
  match r with
  | 'O' :: 'K' :: _ => true
  | _ => false

/-- `cwsl_websdr_tune` (`cwsl_websdr.c`): when the frontend is locked, return
the current frequency unchanged; otherwise send a `frequency` command to the
server and, when it answers (`response = some r`) with a line starting in
`OK`, set `frontend->frequency = freq * (1 + frontend->calibrate)`; in every
case return `frontend->frequency`.  `response` stands for the outcome of
`cwsl_send_command` (`none` = I/O failure, `some r` = the response text). -/
def cwsl_websdr_tune (fe : Frontend) (response : Option (List Char))
    (freq : ℚ) : Frontend × ℚ :=
  if fe.lock then (fe, fe.frequency)
  else
    let fe :=
      match response with
      | some r =>
        if respOK r then
          { fe with frequency := freq * (1 + fe.calibrate) }
        else fe
      | none => fe
    (fe, fe.frequency)

/-! ### Concrete instances used by witnesses and counterexamples -/

/-- A zero socket address. -/
def sock0 : SockAddr := ⟨0, 0⟩

/-- A concrete channel: a linear-demod channel tuned to 10 MHz. -/
def chan0 : Channel where
  output :=
    { samprate := 12000, channels := 1, encoding := 2, gain := 1,
      headroom := 1, opus_bitrate := 0, minpacket := 0,
      rtp := { ssrc := 1234, type := 0, timestamp := 0, packets := 0 },
      dest_socket := sock0, source_socket := sock0, ttl := 0, power := 0,
      samples := 0, errors := 0 }
  filter :=
    { min_IF := -5000, max_IF := 5000, kaiser_beta := 11,
      remainder := some 0, block_drops := 0 }
  filter2 :=
    { kaiser_beta := 0, isb := false, blocking := 0, in_ilen := 0,
      in_impulse_length := 0 }
  tune :=
    { freq := 10000000, shift := 0, doppler := 0, doppler_rate := 0,
      second_LO := 0 }
  linear :=
    { agc := true, hangtime := 1, recovery_rate := 1, threshold := 1,
      env := false }
  pll :=
    { enable := false, square := false, lock := false, loop_bw := 0,
      cphase := 0, snr := 0, rotations := 0 }
  fm :=
    { threshold := false, stereo_enable := false, tone_freq := 0,
      tone_deviation := 0, pdeviation := 0, rate := 0, gain := 1, snr := 0 }
  spectrum := { bin_bw := 1000, bin_count := 64, bin_data := none }
  status :=
    { tag := 0, packets_in := 0, packets_out := 0, blocks_since_poll := 0,
      output_interval := 0, global_timer := 0, command := none,
      dest_socket := sock0 }
  sig := { n0 := 0, bb_power := 0, foffset := 0 }
  demod_type := LINEAR_DEMOD
  snr_squelch_enable := false
  squelch_open := 1
  squelch_close := 1
  options := 0
  lifetime := 20
  preset := ""
  inuse := true
  tp1 := none
  tp2 := none

/-- A concrete complex frontend with a 1% calibration offset. -/
def fe0 : Frontend where
  description := ""
  samples := 0
  samprate := 192000
  isreal := false
  calibrate := 1 / 100
  rf_gain := 0
  rf_atten := 0
  rf_level_cal := 0
  rf_agc := 0
  lna_gain := 0
  mixer_gain := 0
  if_gain := 0
  min_IF := -90240
  max_IF := 90240
  bitspersample := 16
  frequency := 14000000
  if_power := 0
  overranges := 0
  samp_since_over := 0
  in_ilen := 960
  in_impulse_length := 193
  metadata_dest_socket := sock0
  lock := false

/-- A concrete environment.  `dB2power` is instantiated with a strictly
increasing positive rational stand-in for `10^(x/10)` on the range of
interest — the properties the counterexamples rely on (monotone, positive)
are shared with the real function. -/
def env0 : Env where
  dB2power := fun x => x + 1000
  dB2voltage := fun x => x + 100
  power2dB := fun x => x - 1000
  voltage2dB := fun x => x - 100
  log1p := fun x => x
  round_samprate := fun n => n
  pt_from_info := fun _ _ _ => 0
  presetTable := fun _ => none
  channel_idle_timeout := 76
  spectrum_poll := fun _ _ => 0
  scale_ADpower2FS := fun _ => 1
  gps_time := 0
  source_socket := sock0
  create_chan := fun _ => none
  frontend := fe0

/-- `env0` with a preset table where every name resolves to a bundle with a
±3000 Hz passband, a spectrum bin count of 128 and a bin width of 40 Hz. -/
def env1 : Env :=
  { env0 with
    presetTable := fun _ =>
      some { low := some (-3000), high := some 3000, bin_count := some 128,
             bin_bw := some 40 } }

/-! ### Preservation lemmas about the decoder -/

/-- A successful `loadpreset` only overwrites the fields a preset bundles;
in particular the idle countdown, the squelch thresholds, the manual gain,
the AGC flag and the status bookkeeping are untouched. -/
theorem loadpreset_preserves (tbl : String → Option Preset) (chan c : Channel)
    (name : String) (h : loadpreset tbl chan name = some c) :
    c.lifetime = chan.lifetime ∧ c.squelch_open = chan.squelch_open ∧
    c.squelch_close = chan.squelch_close ∧ c.output.gain = chan.output.gain ∧
    c.linear.agc = chan.linear.agc ∧ c.status = chan.status := by
  unfold loadpreset at h
  split at h
  · exact absurd h (by simp)
  · injection h with h
    subst h
    exact ⟨rfl, rfl, rfl, rfl, rfl, rfl⟩

/-- No tag handler touches `lifetime`, and the squelch handlers only write
`0` or an absolute value, so nonnegative thresholds stay nonnegative. -/
theorem applyTag_invariants (env : Env) (s : DecodeSt) (t : Tag) :
    (applyTag env s t).chan.lifetime = s.chan.lifetime ∧
    (0 ≤ s.chan.squelch_open → 0 ≤ (applyTag env s t).chan.squelch_open) ∧
    (0 ≤ s.chan.squelch_close → 0 ≤ (applyTag env s t).chan.squelch_close) := by
  cases t <;>
    try (refine ⟨?_, fun h => ?_, fun h => ?_⟩ <;>
      simp only [applyTag, set_freq] <;> (repeat' split) <;>
      first | rfl | exact h | exact le_refl 0 | exact abs_nonneg _)
  case preset name =>
    simp only [applyTag]
    split
    next => exact ⟨rfl, fun h => h, fun h => h⟩
    next c hl =>
      obtain ⟨h1, h2, h3, _, _, _⟩ := loadpreset_preserves _ _ _ _ hl
      repeat' split
      all_goals
        exact ⟨h1, fun h => h2 ▸ h, fun h => h3 ▸ h⟩

/-- `applyTag_invariants`, lifted over a whole tag list. -/
theorem processTags_invariants (env : Env) (s : DecodeSt) (ts : List Tag) :
    (processTags env s ts).chan.lifetime = s.chan.lifetime ∧
    (0 ≤ s.chan.squelch_open → 0 ≤ (processTags env s ts).chan.squelch_open) ∧
    (0 ≤ s.chan.squelch_close → 0 ≤ (processTags env s ts).chan.squelch_close) := by
  induction ts generalizing s with
  | nil => exact ⟨rfl, fun h => h, fun h => h⟩
  | cons t ts ih =>
    obtain ⟨a1, a2, a3⟩ := applyTag_invariants env s t
    obtain ⟨p1, p2, p3⟩ := ih (applyTag env s t)
    cases t
    case eol => exact ⟨rfl, fun h => h, fun h => h⟩
    all_goals exact ⟨p1.trans a1, fun h => p2 (a2 h), fun h => p3 (a3 h)⟩

/-- The override-application section only writes the spectrum parameters. -/
theorem applyOverrides_preserves (s : DecodeSt) :
    (applyOverrides s).1.lifetime = s.chan.lifetime ∧
    (applyOverrides s).1.squelch_open = s.chan.squelch_open ∧
    (applyOverrides s).1.squelch_close = s.chan.squelch_close ∧
    (applyOverrides s).1.output = s.chan.output ∧
    (applyOverrides s).1.linear = s.chan.linear ∧
    (applyOverrides s).1.demod_type = s.chan.demod_type ∧
    (applyOverrides s).1.filter = s.chan.filter ∧
    (applyOverrides s).1.tune = s.chan.tune ∧
    (applyOverrides s).1.status = s.chan.status := by
  unfold applyOverrides
  dsimp only
  repeat' split
  all_goals exact ⟨rfl, rfl, rfl, rfl, rfl, rfl, rfl, rfl, rfl⟩

/-- The decoder epilogue only clears the preset name, re-applies the current
frequency and resets the fine-oscillator remainder: the fields below pass
through unchanged, and the spectrum state is exactly the override result. -/
theorem decodeFinish_preserves (s : DecodeSt) :
    (decodeFinish s).1.lifetime = s.chan.lifetime ∧
    (decodeFinish s).1.squelch_open = s.chan.squelch_open ∧
    (decodeFinish s).1.squelch_close = s.chan.squelch_close ∧
    (decodeFinish s).1.output.gain = s.chan.output.gain ∧
    (decodeFinish s).1.output.samprate = s.chan.output.samprate ∧
    (decodeFinish s).1.output.encoding = s.chan.output.encoding ∧
    (decodeFinish s).1.linear.agc = s.chan.linear.agc ∧
    (decodeFinish s).1.demod_type = s.chan.demod_type ∧
    (decodeFinish s).1.filter.min_IF = s.chan.filter.min_IF ∧
    (decodeFinish s).1.filter.max_IF = s.chan.filter.max_IF ∧
    (decodeFinish s).1.tune.freq = s.chan.tune.freq ∧
    (decodeFinish s).1.spectrum = (applyOverrides s).1.spectrum := by
  obtain ⟨q1, q2, q3, q4, q5, q6, q7, q8, q9⟩ := applyOverrides_preserves s
  refine ⟨?_, ?_, ?_, ?_, ?_, ?_, ?_, ?_, ?_, ?_, ?_, ?_⟩ <;>
    (unfold decodeFinish finishFilter set_freq
     dsimp only
     repeat' split) <;>
    simp [q1, q2, q3, q4, q5, q6, q7, q8, q9]

/-- The decoder prologue only touches `lifetime` and `status.packets_in`. -/
theorem initDecodeSt_preserves (env : Env) (chan : Channel) :
    (initDecodeSt env chan).chan.output = chan.output ∧
    (initDecodeSt env chan).chan.filter = chan.filter ∧
    (initDecodeSt env chan).chan.tune = chan.tune ∧
    (initDecodeSt env chan).chan.linear = chan.linear ∧
    (initDecodeSt env chan).chan.spectrum = chan.spectrum ∧
    (initDecodeSt env chan).chan.demod_type = chan.demod_type ∧
    (initDecodeSt env chan).chan.squelch_open = chan.squelch_open ∧
    (initDecodeSt env chan).chan.squelch_close = chan.squelch_close := by
  unfold initDecodeSt
  dsimp only
  split
  all_goals exact ⟨rfl, rfl, rfl, rfl, rfl, rfl, rfl, rfl⟩

/-! ### Claim theorems -/

/-- C10: processing a GAIN command with (finite) value `f` sets the manual
output gain to `dB2voltage f` and forces the AGC enable flag off, for every
channel and environment. -/
theorem C10_gain_disables_agc (env : Env) (chan : Channel) (f : ℚ) :
    (decode_radio_commands_with_source env chan [Tag.gain f]).1.output.gain
        = env.dB2voltage f ∧
    (decode_radio_commands_with_source env chan [Tag.gain f]).1.linear.agc
        = false := by
  have hp := decodeFinish_preserves
    (processTags env (initDecodeSt env chan) [Tag.gain f])
  exact ⟨hp.2.2.2.1.trans rfl, hp.2.2.2.2.2.2.1.trans rfl⟩

/-- C3 counterexample: a channel whose countdown is already 0 but whose tune
frequency is nonzero does *not* get its lifetime reset to the idle timeout
(76 here) — the code additionally requires `lifetime ≠ 0`, which the claim
omits. -/
theorem C3_counterexample :
    ({ chan0 with lifetime := 0, tune.freq := 7 } : Channel).tune.freq ≠ 0 ∧
    env0.channel_idle_timeout = 76 ∧
    (decode_radio_commands_with_source env0
      { chan0 with lifetime := 0, tune.freq := 7 } []).1.lifetime = 0 := by
  refine ⟨by norm_num [chan0], rfl, rfl⟩

/-- C3 (amended): decoding any command resets `lifetime` to the idle timeout
exactly when the countdown is running (`lifetime ≠ 0`) *and* the tune
frequency is nonzero; a channel at `freq = 0` keeps its countdown (and so
still expires), and a channel with no countdown stays at 0. -/
theorem C3_lifetime_rule (env : Env) (chan : Channel) (tags : List Tag) :
    (chan.lifetime ≠ 0 → chan.tune.freq ≠ 0 →
      (decode_radio_commands_with_source env chan tags).1.lifetime
        = env.channel_idle_timeout) ∧
    (chan.tune.freq = 0 →
      (decode_radio_commands_with_source env chan tags).1.lifetime
        = chan.lifetime) ∧
    (chan.lifetime = 0 →
      (decode_radio_commands_with_source env chan tags).1.lifetime = 0) := by
  have hp := (decodeFinish_preserves
    (processTags env (initDecodeSt env chan) tags)).1
  have hq := (processTags_invariants env (initDecodeSt env chan) tags).1
  have hi : (initDecodeSt env chan).chan.lifetime
      = if chan.lifetime ≠ 0 ∧ chan.tune.freq ≠ 0 then env.channel_idle_timeout
        else chan.lifetime := by
    unfold initDecodeSt
    dsimp only
    split <;> rfl
  have key : (decode_radio_commands_with_source env chan tags).1.lifetime
      = if chan.lifetime ≠ 0 ∧ chan.tune.freq ≠ 0 then env.channel_idle_timeout
        else chan.lifetime := (hp.trans hq).trans hi
  refine ⟨fun h1 h2 => ?_, fun h => ?_, fun h => ?_⟩ <;> rw [key]
  · rw [if_pos ⟨h1, h2⟩]
  · rw [if_neg]
    simp [h]
  · rw [if_neg]
    · exact h
    · simp [h]

/-- C3 witness: on a tuned channel with a running countdown the timeout is
applied. -/
theorem C3_lifetime_rule_witness :
    chan0.lifetime ≠ 0 ∧ chan0.tune.freq ≠ 0 ∧
    (decode_radio_commands_with_source env0 chan0 []).1.lifetime = 76 :=
  ⟨by norm_num [chan0], by norm_num [chan0],
   (C3_lifetime_rule env0 chan0 []).1 (by norm_num [chan0])
     (by norm_num [chan0])⟩

/-- C7 counterexample: the decoder never compares the two squelch
thresholds, so a packet carrying `SQUELCH_OPEN = -50 dB` and
`SQUELCH_CLOSE = -10 dB` leaves `squelch_open < squelch_close` with both
nonzero, refuting the claimed invariant. -/
theorem C7_counterexample :
    (decode_radio_commands_with_source env0 chan0
        [Tag.squelchOpen (-50), Tag.squelchClose (-10)]).1.squelch_open
      < (decode_radio_commands_with_source env0 chan0
        [Tag.squelchOpen (-50), Tag.squelchClose (-10)]).1.squelch_close ∧
    (decode_radio_commands_with_source env0 chan0
        [Tag.squelchOpen (-50), Tag.squelchClose (-10)]).1.squelch_open ≠ 0 ∧
    (decode_radio_commands_with_source env0 chan0
        [Tag.squelchOpen (-50), Tag.squelchClose (-10)]).1.squelch_close ≠ 0 := by
  have h1 : (decode_radio_commands_with_source env0 chan0
      [Tag.squelchOpen (-50), Tag.squelchClose (-10)]).1.squelch_open
      = |(-50 : ℚ) + 1000| := rfl
  have h2 : (decode_radio_commands_with_source env0 chan0
      [Tag.squelchOpen (-50), Tag.squelchClose (-10)]).1.squelch_close
      = |(-10 : ℚ) + 1000| := rfl
  rw [h1, h2, abs_of_nonneg (by norm_num : (0 : ℚ) ≤ -50 + 1000),
    abs_of_nonneg (by norm_num : (0 : ℚ) ≤ -10 + 1000)]
  norm_num

/-- C7 (amended): what the command handlers do preserve is nonnegativity of
both thresholds — each `SQUELCH_*` write stores either the sentinel `0` or
an absolute value; the ordering `squelch_open ≥ squelch_close` is not
enforced by the decoder. -/
theorem C7_squelch_nonneg (env : Env) (chan : Channel) (tags : List Tag)
    (h1 : 0 ≤ chan.squelch_open) (h2 : 0 ≤ chan.squelch_close) :
    0 ≤ (decode_radio_commands_with_source env chan tags).1.squelch_open ∧
    0 ≤ (decode_radio_commands_with_source env chan tags).1.squelch_close := by
  have hp := decodeFinish_preserves (processTags env (initDecodeSt env chan) tags)
  have hq := processTags_invariants env (initDecodeSt env chan) tags
  have hio : (initDecodeSt env chan).chan.squelch_open = chan.squelch_open :=
    (initDecodeSt_preserves env chan).2.2.2.2.2.2.1
  have hic : (initDecodeSt env chan).chan.squelch_close = chan.squelch_close :=
    (initDecodeSt_preserves env chan).2.2.2.2.2.2.2
  constructor
  · rw [show (decode_radio_commands_with_source env chan tags).1.squelch_open
        = (processTags env (initDecodeSt env chan) tags).chan.squelch_open
        from hp.2.1]
    exact hq.2.1 (by rw [hio]; exact h1)
  · rw [show (decode_radio_commands_with_source env chan tags).1.squelch_close
        = (processTags env (initDecodeSt env chan) tags).chan.squelch_close
        from hp.2.2.1]
    exact hq.2.2 (by rw [hic]; exact h2)

/-- C7 witness: nonnegativity survives the very command sequence of the
counterexample. -/
theorem C7_squelch_nonneg_witness :
    0 ≤ chan0.squelch_open ∧ 0 ≤ chan0.squelch_close ∧
    (0 ≤ (decode_radio_commands_with_source env0 chan0
        [Tag.squelchOpen (-50), Tag.squelchClose (-10)]).1.squelch_open ∧
     0 ≤ (decode_radio_commands_with_source env0 chan0
        [Tag.squelchOpen (-50), Tag.squelchClose (-10)]).1.squelch_close) :=
  ⟨by norm_num [chan0], by norm_num [chan0],
   C7_squelch_nonneg env0 chan0 [Tag.squelchOpen (-50), Tag.squelchClose (-10)]
     (by norm_num [chan0]) (by norm_num [chan0])⟩

/-- In LINEAR, FM and WFM modes the STATUS packet always carries both
squelch thresholds (as dB via `power2dB`). -/
theorem squelch_reported (env : Env) (fe : Frontend) (chan : Channel)
    (skip : Bool)
    (hd : chan.demod_type = LINEAR_DEMOD ∨ chan.demod_type = FM_DEMOD ∨
      chan.demod_type = WFM_DEMOD) :
    SField.squelchOpen (env.power2dB chan.squelch_open)
        ∈ (encode_radio_status_ex env fe chan skip).1 ∧
    SField.squelchClose (env.power2dB chan.squelch_close)
        ∈ (encode_radio_status_ex env fe chan skip).1 := by
  rcases hd with h | h | h <;>
    simp [encode_radio_status_ex, statusModeFields, h, LINEAR_DEMOD, FM_DEMOD,
      WFM_DEMOD, SPECT_DEMOD]

/-- C6: a SQUELCH_OPEN or SQUELCH_CLOSE command with value `x` sets the
corresponding threshold to the sentinel `0` when `x ≤ -999` dB and to the
nonnegative ratio `|dB2power x|` otherwise, and the next STATUS still
reports both squelch thresholds. -/
theorem C6_squelch_sentinel (env : Env) (fe : Frontend) (chan : Channel)
    (x : ℚ) (skip : Bool)
    (hd : chan.demod_type = LINEAR_DEMOD ∨ chan.demod_type = FM_DEMOD ∨
      chan.demod_type = WFM_DEMOD) :
    ((decode_radio_commands_with_source env chan
        [Tag.squelchOpen x]).1.squelch_open
        = if x ≤ -999 then 0 else |env.dB2power x|) ∧
    0 ≤ (decode_radio_commands_with_source env chan
        [Tag.squelchOpen x]).1.squelch_open ∧
    ((decode_radio_commands_with_source env chan
        [Tag.squelchClose x]).1.squelch_close
        = if x ≤ -999 then 0 else |env.dB2power x|) ∧
    0 ≤ (decode_radio_commands_with_source env chan
        [Tag.squelchClose x]).1.squelch_close ∧
    SField.squelchOpen (env.power2dB
        (decode_radio_commands_with_source env chan
          [Tag.squelchOpen x]).1.squelch_open)
      ∈ (encode_radio_status_ex env fe
          (decode_radio_commands_with_source env chan
            [Tag.squelchOpen x]).1 skip).1 ∧
    SField.squelchClose (env.power2dB
        (decode_radio_commands_with_source env chan
          [Tag.squelchClose x]).1.squelch_close)
      ∈ (encode_radio_status_ex env fe
          (decode_radio_commands_with_source env chan
            [Tag.squelchClose x]).1 skip).1 := by
  have ho : (decode_radio_commands_with_source env chan
      [Tag.squelchOpen x]).1.squelch_open
      = if x ≤ -999 then 0 else |env.dB2power x| :=
    (decodeFinish_preserves (processTags env (initDecodeSt env chan)
      [Tag.squelchOpen x])).2.1.trans rfl
  have hc : (decode_radio_commands_with_source env chan
      [Tag.squelchClose x]).1.squelch_close
      = if x ≤ -999 then 0 else |env.dB2power x| :=
    (decodeFinish_preserves (processTags env (initDecodeSt env chan)
      [Tag.squelchClose x])).2.2.1.trans rfl
  have hnn : (0 : ℚ) ≤ if x ≤ -999 then 0 else |env.dB2power x| := by
    split
    · exact le_refl 0
    · exact abs_nonneg _
  have hdo : (decode_radio_commands_with_source env chan
      [Tag.squelchOpen x]).1.demod_type = chan.demod_type :=
    ((decodeFinish_preserves (processTags env (initDecodeSt env chan)
      [Tag.squelchOpen x])).2.2.2.2.2.2.2.1).trans
      ((initDecodeSt_preserves env chan).2.2.2.2.2.1)
  have hdc : (decode_radio_commands_with_source env chan
      [Tag.squelchClose x]).1.demod_type = chan.demod_type :=
    ((decodeFinish_preserves (processTags env (initDecodeSt env chan)
      [Tag.squelchClose x])).2.2.2.2.2.2.2.1).trans
      ((initDecodeSt_preserves env chan).2.2.2.2.2.1)
  refine ⟨ho, ho ▸ hnn, hc, hc ▸ hnn, ?_, ?_⟩
  · exact (squelch_reported env fe _ skip (by rw [hdo]; exact hd)).1
  · exact (squelch_reported env fe _ skip (by rw [hdc]; exact hd)).2

/-- C6 witness: on the linear channel `chan0`, a `-1000 dB` squelch command
yields the sentinel and the STATUS still carries the threshold. -/
theorem C6_squelch_sentinel_witness :
    chan0.demod_type = LINEAR_DEMOD ∧
    (decode_radio_commands_with_source env0 chan0
        [Tag.squelchOpen (-1000)]).1.squelch_open = 0 ∧
    (decode_radio_commands_with_source env0 chan0
        [Tag.squelchClose (-1000)]).1.squelch_close = 0 ∧
    SField.squelchOpen (env0.power2dB
        (decode_radio_commands_with_source env0 chan0
          [Tag.squelchOpen (-1000)]).1.squelch_open)
      ∈ (encode_radio_status_ex env0 fe0
          (decode_radio_commands_with_source env0 chan0
            [Tag.squelchOpen (-1000)]).1 false).1 := by
  obtain ⟨h1, _, h3, _, h5, _⟩ :=
    C6_squelch_sentinel env0 fe0 chan0 (-1000) false (Or.inl rfl)
  refine ⟨rfl, ?_, ?_, h5⟩
  · rw [h1, if_pos (by norm_num)]
  · rw [h3, if_pos (by norm_num)]

/-- C8 counterexample: switching a 9600 Hz channel to Opus coerces its rate
to 48000 Hz, although 8000 Hz is a supported rate strictly nearer to
9600 Hz — the code does not pick the *nearest* supported value. -/
theorem C8_counterexample :
    (decode_radio_commands_with_source env0
        { chan0 with output.samprate := 9600 }
        [Tag.outputEncoding OPUS]).1.output.samprate = 48000 ∧
    opus_rate_ok 8000 = true ∧
    ((9600 : ℤ) - 8000).natAbs < ((48000 : ℤ) - 9600).natAbs := by
  refine ⟨rfl, rfl, by decide⟩

/-- When the tag loop saved no overrides, the override section reports no
spectrum-parameter change. -/
theorem applyOverrides_snd_false (s : DecodeSt)
    (h : s.has_overrides = false) : (applyOverrides s).2 = false := by
  unfold applyOverrides
  rw [if_neg (by simp [h])]

/-- With `restart_needed` set and no spectrum-parameter change, the decoder
epilogue returns `true` (a restart is requested). -/
theorem decodeFinish_snd_true (s : DecodeSt) (h1 : s.restart_needed = true)
    (h2 : (applyOverrides s).2 = false) : (decodeFinish s).2 = true := by
  unfold decodeFinish
  dsimp only
  rw [if_neg (fun hc => by rw [h2] at hc; exact Bool.false_ne_true hc.2),
    if_pos h1]

/-- C8 (amended): selecting Opus on a channel whose rate Opus does not
support silently coerces the rate to 48000 Hz (Opus's internal rate, not
the nearest supported value), switches the encoding and requests a channel
restart (the decoder returns `true`); an OUTPUT_SAMPRATE command naming a
rate unsupported under Opus is ignored — the sample rate is left unchanged
— so an Opus channel can never be moved off the supported set. -/
theorem C8_opus_rate_coercion (env : Env) (chan : Channel) (v : ℕ) :
    (chan.output.encoding ≠ OPUS → ¬ opus_rate_ok chan.output.samprate →
      (decode_radio_commands_with_source env chan
          [Tag.outputEncoding OPUS]).1.output.samprate = 48000 ∧
      (decode_radio_commands_with_source env chan
          [Tag.outputEncoding OPUS]).1.output.encoding = OPUS ∧
      (decode_radio_commands_with_source env chan
          [Tag.outputEncoding OPUS]).2 = true) ∧
    (chan.output.encoding = OPUS → ¬ opus_rate_ok (env.round_samprate v) →
      (decode_radio_commands_with_source env chan
          [Tag.outputSamprate v]).1.output.samprate
        = chan.output.samprate) ∧
    (chan.output.encoding = OPUS → opus_rate_ok chan.output.samprate →
      opus_rate_ok
        (decode_radio_commands_with_source env chan
          [Tag.outputSamprate v]).1.output.samprate) := by
  have hie : (initDecodeSt env chan).chan.output = chan.output :=
    (initDecodeSt_preserves env chan).1
  refine ⟨fun h1 h2 => ?_, fun h1 hb => ?_, fun h1 h2 => ?_⟩
  · have hs := decodeFinish_preserves
      (processTags env (initDecodeSt env chan) [Tag.outputEncoding OPUS])
    have hho : (processTags env (initDecodeSt env chan)
        [Tag.outputEncoding OPUS]).has_overrides = false := by
      show (applyTag env (initDecodeSt env chan)
        (Tag.outputEncoding OPUS)).has_overrides = false
      simp only [applyTag]
      repeat' split
      all_goals rfl
    have hrn : (processTags env (initDecodeSt env chan)
        [Tag.outputEncoding OPUS]).restart_needed = true := by
      show (applyTag env (initDecodeSt env chan)
        (Tag.outputEncoding OPUS)).restart_needed = true
      simp only [applyTag]
      split
      · split
        · rfl
        · next hcf =>
            refine absurd ⟨by trivial, fun hr => h2 ?_⟩ hcf
            rw [← hie]
            exact hr
      · next hcf =>
          refine absurd ⟨fun hx => h1 ?_,
            by norm_num [NO_ENCODING, OPUS, UNUSED_ENCODING]⟩ hcf
          rw [← hie]
          exact hx.symm
    refine ⟨?_, ?_, decodeFinish_snd_true _ hrn (applyOverrides_snd_false _ hho)⟩
    · rw [show (decode_radio_commands_with_source env chan
          [Tag.outputEncoding OPUS]).1.output.samprate
          = (processTags env (initDecodeSt env chan)
            [Tag.outputEncoding OPUS]).chan.output.samprate
          from hs.2.2.2.2.1]
      show (applyTag env (initDecodeSt env chan)
        (Tag.outputEncoding OPUS)).chan.output.samprate = 48000
      simp only [applyTag]
      split
      · split
        · rfl
        · next hcf =>
            refine absurd ⟨by trivial, fun hr => h2 ?_⟩ hcf
            rw [← hie]
            exact hr
      · next hcf =>
          refine absurd ⟨fun hx => h1 ?_,
            by norm_num [NO_ENCODING, OPUS, UNUSED_ENCODING]⟩ hcf
          rw [← hie]
          exact hx.symm
    · rw [show (decode_radio_commands_with_source env chan
          [Tag.outputEncoding OPUS]).1.output.encoding
          = (processTags env (initDecodeSt env chan)
            [Tag.outputEncoding OPUS]).chan.output.encoding
          from hs.2.2.2.2.2.1]
      show (applyTag env (initDecodeSt env chan)
        (Tag.outputEncoding OPUS)).chan.output.encoding = OPUS
      simp only [applyTag]
      split
      · split <;> rfl
      · next hcf =>
          refine absurd ⟨fun hx => h1 ?_,
            by norm_num [NO_ENCODING, OPUS, UNUSED_ENCODING]⟩ hcf
          rw [← hie]
          exact hx.symm
  · rw [show (decode_radio_commands_with_source env chan
        [Tag.outputSamprate v]).1.output.samprate
        = (processTags env (initDecodeSt env chan)
          [Tag.outputSamprate v]).chan.output.samprate
        from (decodeFinish_preserves (processTags env (initDecodeSt env chan)
          [Tag.outputSamprate v])).2.2.2.2.1]
    show (applyTag env (initDecodeSt env chan)
      (Tag.outputSamprate v)).chan.output.samprate = chan.output.samprate
    simp only [applyTag]
    split
    · split
      · next hcond =>
          rcases hcond with hc | hc
          · refine absurd ?_ hc
            rw [hie]
            exact h1
          · exact absurd hc hb
      · rw [hie]
    · rw [hie]
  · rw [show (decode_radio_commands_with_source env chan
        [Tag.outputSamprate v]).1.output.samprate
        = (processTags env (initDecodeSt env chan)
          [Tag.outputSamprate v]).chan.output.samprate
        from (decodeFinish_preserves (processTags env (initDecodeSt env chan)
          [Tag.outputSamprate v])).2.2.2.2.1]
    show opus_rate_ok
      (applyTag env (initDecodeSt env chan)
        (Tag.outputSamprate v)).chan.output.samprate = true
    simp only [applyTag]
    split
    · split
      · next hcond =>
          rcases hcond with hc | hc
          · refine absurd ?_ hc
            rw [hie]
            exact h1
          · exact hc
      · show opus_rate_ok (initDecodeSt env chan).chan.output.samprate = true
        rw [hie]
        exact h2
    · show opus_rate_ok (initDecodeSt env chan).chan.output.samprate = true
      rw [hie]
      exact h2

/-- C8 witness: the coercion-and-restart branch at a concrete unsupported
rate, and an unsupported OUTPUT_SAMPRATE request on an Opus channel being
ignored. -/
theorem C8_opus_rate_coercion_witness :
    (({ chan0 with output.samprate := 9600 } : Channel).output.encoding
        ≠ OPUS ∧
     ¬ opus_rate_ok
        ({ chan0 with output.samprate := 9600 } : Channel).output.samprate ∧
     (decode_radio_commands_with_source env0
        { chan0 with output.samprate := 9600 }
        [Tag.outputEncoding OPUS]).1.output.samprate = 48000 ∧
     (decode_radio_commands_with_source env0
        { chan0 with output.samprate := 9600 }
        [Tag.outputEncoding OPUS]).2 = true) ∧
    (({ chan0 with output.encoding := OPUS } : Channel).output.encoding
        = OPUS ∧
     ¬ opus_rate_ok (env0.round_samprate 9600) ∧
     (decode_radio_commands_with_source env0
        { chan0 with output.encoding := OPUS }
        [Tag.outputSamprate 9600]).1.output.samprate = 12000) := by
  obtain ⟨ha1, _, ha3⟩ :=
    (C8_opus_rate_coercion env0 { chan0 with output.samprate := 9600 } 0).1
      (by norm_num [chan0, OPUS]) (by decide)
  have hb3 :=
    (C8_opus_rate_coercion env0 { chan0 with output.encoding := OPUS }
      9600).2.1 rfl (by decide)
  exact ⟨⟨by norm_num [chan0, OPUS], by decide, ha1, ha3⟩,
    ⟨rfl, by decide, hb3⟩⟩

/-- The STATUS head always reports the frontend LO (`FIRST_LO_FREQUENCY`). -/
theorem firstLO_reported (env : Env) (fe : Frontend) (chan : Channel)
    (skip : Bool) :
    SField.firstLOFrequency fe.frequency
      ∈ (encode_radio_status_ex env fe chan skip).1 := by
  simp [encode_radio_status_ex, statusHead]

/-- C9: with the frontend unlocked and the server acknowledging (`OK`),
`tune(f)` stores and returns `f * (1 + calibrate)` and a subsequent STATUS
reports that value in the first-LO field; with the frontend locked, `tune`
returns the current frequency and changes nothing. -/
theorem C9_tune (env : Env) (fe : Frontend) (chan : Channel) (skip : Bool)
    (r : List Char) (resp : Option (List Char)) (freq : ℚ) :
    (fe.lock = false → respOK r = true →
      (cwsl_websdr_tune fe (some r) freq).2 = freq * (1 + fe.calibrate) ∧
      (cwsl_websdr_tune fe (some r) freq).1.frequency
        = freq * (1 + fe.calibrate) ∧
      SField.firstLOFrequency (freq * (1 + fe.calibrate))
        ∈ (encode_radio_status_ex env (cwsl_websdr_tune fe (some r) freq).1
            chan skip).1) ∧
    (fe.lock = true → cwsl_websdr_tune fe resp freq = (fe, fe.frequency)) := by
  constructor
  · intro h1 h2
    have he : (cwsl_websdr_tune fe (some r) freq).1
        = { fe with frequency := freq * (1 + fe.calibrate) } := by
      unfold cwsl_websdr_tune
      rw [if_neg (by simp [h1])]
      dsimp only
      rw [if_pos h2]
    refine ⟨?_, ?_, ?_⟩
    · unfold cwsl_websdr_tune
      rw [if_neg (by simp [h1])]
      dsimp only
      rw [if_pos h2]
    · rw [he]
    · have hm := firstLO_reported env (cwsl_websdr_tune fe (some r) freq).1
        chan skip
      rwa [show (cwsl_websdr_tune fe (some r) freq).1.frequency
          = freq * (1 + fe.calibrate) by rw [he]] at hm
  · intro h
    unfold cwsl_websdr_tune
    rw [if_pos h]

/-- C9 witness: tuning the 1%-calibrated frontend `fe0` to 7 MHz with an
`OK` acknowledgement yields 7.07 MHz. -/
theorem C9_tune_witness :
    fe0.lock = false ∧ respOK ['O', 'K'] = true ∧
    (cwsl_websdr_tune fe0 (some ['O', 'K']) 7000000).2 = 7070000 := by
  refine ⟨rfl, by decide, ?_⟩
  have h := (C9_tune env0 fe0 chan0 false ['O', 'K'] none 7000000).1 rfl
    (by decide)
  rw [h.1]
  norm_num [fe0]

/-- `stagger_aux` preserves the channel count. -/
theorem stagger_aux_length (k : ℕ) (l : List Channel) :
    (stagger_aux k l).length = l.length := by
  induction l generalizing k with
  | nil => rfl
  | cons c cs ih => simp [stagger_aux, ih]

/-- Elementwise description of the broadcast staggering loop starting at
index offset `k`. -/
theorem stagger_aux_get (l : List Channel) (k i : ℕ)
    (h1 : i < (stagger_aux k l).length) (h2 : i < l.length) :
    (stagger_aux k l).get ⟨i, h1⟩ =
      (if (l.get ⟨i, h2⟩).inuse ∧ (l.get ⟨i, h2⟩).output.rtp.ssrc ≠ 0xffffffff
          ∧ (l.get ⟨i, h2⟩).output.rtp.ssrc ≠ 0
       then { l.get ⟨i, h2⟩ with status.global_timer := (k + i) / 2 + 1 }
       else l.get ⟨i, h2⟩) := by
  induction l generalizing k i with
  | nil => exact absurd h2 (Nat.not_lt_zero i)
  | cons c cs ih =>
    cases i with
    | zero => simp [stagger_aux]
    | succ i =>
      have h2a : i < cs.length := Nat.lt_of_succ_lt_succ h2
      have h1a : i < (stagger_aux (k + 1) cs).length := by
        rw [stagger_aux_length]
        exact h2a
      have step : (stagger_aux k (c :: cs)).get ⟨i + 1, h1⟩
          = (stagger_aux (k + 1) cs).get ⟨i, h1a⟩ := rfl
      rw [step, ih (k + 1) i h1a h2a]
      have harith : k + 1 + i = k + (i + 1) := by omega
      rw [harith]
      rfl

/-- C4: a command datagram whose ssrc is 0 is dropped without touching any
channel; a broadcast (`0xffffffff`) sets `status.global_timer = i/2 + 1` on
every in-use channel with a non-reserved ssrc, leaves every other channel
and every other field untouched, and executes no command tags. -/
theorem C4_reserved_ssrc_dispatch (env : Env) (channels : List Channel)
    (cmd : List Tag) :
    radio_status_step env channels 0 cmd = channels ∧
    (radio_status_step env channels 0xffffffff cmd).length = channels.length ∧
    ∀ i (h1 : i < (radio_status_step env channels 0xffffffff cmd).length)
      (h2 : i < channels.length),
      (radio_status_step env channels 0xffffffff cmd).get ⟨i, h1⟩ =
        (if (channels.get ⟨i, h2⟩).inuse
            ∧ (channels.get ⟨i, h2⟩).output.rtp.ssrc ≠ 0xffffffff
            ∧ (channels.get ⟨i, h2⟩).output.rtp.ssrc ≠ 0
         then { channels.get ⟨i, h2⟩ with status.global_timer := i / 2 + 1 }
         else channels.get ⟨i, h2⟩) := by
  refine ⟨rfl, ?_, ?_⟩
  · show (stagger_update channels).length = channels.length
    exact stagger_aux_length 0 channels
  · intro i h1 h2
    show (stagger_aux 0 channels).get ⟨i, _⟩ = _
    rw [stagger_aux_get channels 0 i (by rwa [radio_status_step] at h1) h2]
    simp

/-- C4 witness: one in-use channel, broadcast poll sets its timer to 1. -/
theorem C4_reserved_ssrc_dispatch_witness :
    radio_status_step env0 [chan0] 0 [] = [chan0] ∧
    (radio_status_step env0 [chan0] 4294967295 []).length = 1 ∧
    (radio_status_step env0 [chan0] 4294967295 []).get
        ⟨0, by rw [(C4_reserved_ssrc_dispatch env0 [chan0] []).2.1]; decide⟩
      = { chan0 with status.global_timer := 1 } := by
  obtain ⟨ha, hb, hc⟩ := C4_reserved_ssrc_dispatch env0 [chan0] []
  refine ⟨ha, hb, ?_⟩
  rw [hc 0 _ (by decide)]
  rw [if_pos]
  · rfl
  · refine ⟨rfl, ?_, ?_⟩ <;> norm_num [chan0]

/-- Writing back the element already stored at an index is the identity. -/
theorem set_getElem_self (l : List Channel) (i : ℕ) (c : Channel)
    (h : l[i]? = some c) : l.set i c = l := by
  induction l generalizing i with
  | nil => simp at h
  | cons a as ih =>
    cases i with
    | zero =>
      simp at h
      simp [List.set, h]
    | succ i =>
      simp at h
      simp [List.set, ih i h]

/-- C5: a command for an existing channel goes to the single pending-command
slot: when the slot is occupied the new command is dropped and the whole
channel list (including the pending command) is unchanged; when the slot is
empty the command is stored there for the worker. -/
theorem C5_single_slot (env : Env) (channels : List Channel) (ssrc : ℕ)
    (cmd : List Tag) (i : ℕ) (c : Channel)
    (h0 : ssrc ≠ 0) (h1 : ssrc ≠ 0xffffffff)
    (h2 : lookup_chan channels ssrc = some i) (h3 : channels[i]? = some c) :
    radio_status_step env channels ssrc cmd
        = channels.set i (queue_command c cmd) ∧
    (∀ pend, c.status.command = some pend →
      queue_command c cmd = c ∧
      radio_status_step env channels ssrc cmd = channels ∧
      (queue_command c cmd).status.command = some pend) ∧
    (c.status.command = none →
      (queue_command c cmd).status.command = some cmd) := by
  have hstep : radio_status_step env channels ssrc cmd
      = channels.set i (queue_command c cmd) := by
    unfold radio_status_step
    rw [if_neg h0, if_neg h1, h2]
    dsimp only
    rw [h3]
  refine ⟨hstep, fun pend hp => ?_, fun hn => ?_⟩
  · have hq : queue_command c cmd = c := by
      unfold queue_command
      rw [hp]
    refine ⟨hq, ?_, by rw [hq]; exact hp⟩
    rw [hstep, hq]
    exact set_getElem_self channels i c h3
  · unfold queue_command
    rw [hn]

/-- C5 witness: queueing into the empty slot of `chan0`. -/
theorem C5_single_slot_witness :
    lookup_chan [chan0] 1234 = some 0 ∧
    ([chan0])[0]? = some chan0 ∧
    chan0.status.command = none ∧
    (queue_command chan0 [Tag.gain 3]).status.command = some [Tag.gain 3] := by
  refine ⟨by decide, rfl, rfl, ?_⟩
  exact (C5_single_slot env0 [chan0] 1234 [Tag.gain 3] 0 chan0
    (by norm_num) (by norm_num) (by decide) rfl).2.2 rfl

/-- The encoder-side spectrum poll touches only the bin contents: count and
buffer presence are unchanged. -/
theorem spectPolledChan_bins (env : Env) (chan : Channel) (skip : Bool) :
    (spectPolledChan env chan skip).spectrum.bin_count
        = chan.spectrum.bin_count ∧
    (spectPolledChan env chan skip).spectrum.bin_data.isSome
        = chan.spectrum.bin_data.isSome := by
  unfold spectPolledChan
  split
  · next h => exact ⟨rfl, by simp [h.2.2]⟩
  · exact ⟨rfl, rfl⟩

/-- The STATUS head never contains a `BIN_DATA` vector. -/
theorem binData_not_in_head (env : Env) (fe : Frontend) (chan : Channel)
    (v : List ℚ) : SField.binData v ∉ statusHead env fe chan := by
  intro hv
  unfold statusHead at hv
  split_ifs at hv <;> simp at hv

/-- The STATUS tail never contains a `BIN_DATA` vector. -/
theorem binData_not_in_tail (env : Env) (chan : Channel) (v : List ℚ) :
    SField.binData v ∉ statusTailFields env chan := by
  intro hv
  unfold statusTailFields at hv
  cases h1 : chan.tp1 <;> cases h2 : chan.tp2 <;>
    rw [h1, h2] at hv <;> split_ifs at hv <;> simp at hv

/-- For a SPECT channel the mode-specific fields are exactly the bin
parameters followed by the optional (post-poll) bin vector. -/
theorem spect_mode_fields (env : Env) (chan : Channel) (skip : Bool)
    (hd : chan.demod_type = SPECT_DEMOD) :
    statusModeFields env chan skip =
      [SField.noncoherentBinBw chan.spectrum.bin_bw,
       SField.binCount chan.spectrum.bin_count] ++
      (match (spectPolledChan env chan skip).spectrum.bin_data with
       | some d =>
         [SField.binData
           ((List.range
             (spectPolledChan env chan skip).spectrum.bin_count.toNat).map d)]
       | none => []) := by
  unfold statusModeFields
  rw [hd]
  norm_num [LINEAR_DEMOD, FM_DEMOD, WFM_DEMOD, SPECT_DEMOD]

/-- C2: every STATUS emitted for a SPECT channel reports `BIN_COUNT` equal
to the channel's `bin_count`; any `BIN_DATA` vector it carries has exactly
that many elements; when `bin_data` is `NULL` (reallocation in flight) the
STATUS carries the bin count and no vector; and when `bin_data` is non-null
a vector of exactly `bin_count` elements is present — a STATUS never carries
a vector whose length disagrees with the `bin_count` it reports. -/
theorem C2_spect_status_bins (env : Env) (fe : Frontend) (chan : Channel)
    (skip : Bool) (hd : chan.demod_type = SPECT_DEMOD) :
    SField.binCount chan.spectrum.bin_count
        ∈ (encode_radio_status_ex env fe chan skip).1 ∧
    (∀ v, SField.binData v ∈ (encode_radio_status_ex env fe chan skip).1 →
      v.length = chan.spectrum.bin_count.toNat) ∧
    (chan.spectrum.bin_data = none →
      ∀ v, SField.binData v ∉ (encode_radio_status_ex env fe chan skip).1) ∧
    (∀ d, chan.spectrum.bin_data = some d →
      ∃ v, SField.binData v ∈ (encode_radio_status_ex env fe chan skip).1 ∧
        v.length = chan.spectrum.bin_count.toNat) := by
  have henc : (encode_radio_status_ex env fe chan skip).1
      = statusHead env fe chan ++ statusModeFields env chan skip ++
        statusTailFields env
          (statusTailChan env (spectPolledChan env chan skip)) := rfl
  have hmode := spect_mode_fields env chan skip hd
  have hpc := spectPolledChan_bins env chan skip
  refine ⟨?_, ?_, ?_, ?_⟩
  · rw [henc, hmode]
    simp
  · intro v hv
    rw [henc] at hv
    rcases List.mem_append.mp hv with hv | hv
    · rcases List.mem_append.mp hv with hv | hv
      · exact absurd hv (binData_not_in_head env fe chan v)
      · rw [hmode] at hv
        rcases List.mem_append.mp hv with hv | hv
        · simp at hv
        · rcases hbd : (spectPolledChan env chan skip).spectrum.bin_data with
            _ | d
          · rw [hbd] at hv
            simp at hv
          · rw [hbd] at hv
            simp at hv
            rw [hv]
            simp [hpc.1]
    · exact absurd hv (binData_not_in_tail env _ v)
  · intro hn v hv
    rw [henc] at hv
    rcases List.mem_append.mp hv with hv | hv
    · rcases List.mem_append.mp hv with hv | hv
      · exact absurd hv (binData_not_in_head env fe chan v)
      · rw [hmode] at hv
        rcases List.mem_append.mp hv with hv | hv
        · simp at hv
        · have hpn : (spectPolledChan env chan skip).spectrum.bin_data
              = none := by
            have := hpc.2
            rw [hn] at this
            simpa using this
          rw [hpn] at hv
          simp at hv
    · exact absurd hv (binData_not_in_tail env _ v)
  · intro d hs
    have hsome : (spectPolledChan env chan skip).spectrum.bin_data.isSome
        = true := by
      rw [hpc.2, hs]
      rfl
    rcases Option.isSome_iff_exists.mp hsome with ⟨d2, hd2⟩
    refine ⟨(List.range
        (spectPolledChan env chan skip).spectrum.bin_count.toNat).map d2,
      ?_, by simp [hpc.1]⟩
    rw [henc, hmode]
    simp [hd2]

/-- C2 witness: on a concrete SPECT channel with 64 bins — no vector while
`bin_data` is null, and a 64-element vector when it is populated. -/
theorem C2_spect_status_bins_witness :
    ({ chan0 with demod_type := SPECT_DEMOD } : Channel).demod_type
        = SPECT_DEMOD ∧
    SField.binCount 64 ∈ (encode_radio_status_ex env0 fe0
        { chan0 with demod_type := SPECT_DEMOD } false).1 ∧
    (∀ v, SField.binData v ∉ (encode_radio_status_ex env0 fe0
        { chan0 with demod_type := SPECT_DEMOD } false).1) ∧
    (∃ v, SField.binData v ∈ (encode_radio_status_ex env0 fe0
        { chan0 with
          demod_type := SPECT_DEMOD
          spectrum.bin_data := some (fun _ => 0) } false).1 ∧
      v.length = 64) := by
  obtain ⟨h1, _, h3, _⟩ := C2_spect_status_bins env0 fe0
    { chan0 with demod_type := SPECT_DEMOD } false rfl
  obtain ⟨_, _, _, h4⟩ := C2_spect_status_bins env0 fe0
    { chan0 with
      demod_type := SPECT_DEMOD
      spectrum.bin_data := some (fun _ => 0) } false rfl
  exact ⟨rfl, h1, h3 rfl, h4 (fun _ => 0) rfl⟩

/-- The PRESET handler never touches the saved override slots. -/
theorem applyTag_preset_overrides (env : Env) (s : DecodeSt) (p : String) :
    (applyTag env s (Tag.preset p)).override_bin_count
        = s.override_bin_count ∧
    (applyTag env s (Tag.preset p)).override_bin_bw = s.override_bin_bw ∧
    (applyTag env s (Tag.preset p)).has_overrides = s.has_overrides := by
  simp only [applyTag]
  repeat' split
  all_goals exact ⟨rfl, rfl, rfl⟩

/-- After the tag loop, a spectrum channel with saved overrides ends up with
exactly the overridden bin count (when positive) and bin width. -/
theorem applyOverrides_result (s : DecodeSt) (h1 : s.has_overrides = true)
    (h2 : s.chan.demod_type = SPECT_DEMOD) (h3 : 0 < s.override_bin_count) :
    (applyOverrides s).1.spectrum.bin_count = s.override_bin_count ∧
    ∀ b, s.override_bin_bw = some b →
      (applyOverrides s).1.spectrum.bin_bw = b := by
  unfold applyOverrides
  rw [if_pos ⟨h1, h2⟩]
  dsimp only
  by_cases hc1 : s.override_bin_count > 0 ∧
      s.override_bin_count ≠ s.chan.spectrum.bin_count
  · rw [if_pos hc1]
    dsimp only
    constructor
    · rcases hb : s.override_bin_bw with _ | b
      · rfl
      · dsimp only
        split
        · rfl
        · rfl
    · intro b hb
      rw [hb]
      dsimp only
      split
      · rfl
      · next hcb =>
          simp only [ne_eq, not_not] at hcb
          exact hcb.symm
  · rw [if_neg hc1]
    dsimp only
    have heq : s.override_bin_count = s.chan.spectrum.bin_count := by
      rcases not_and_or.mp hc1 with h | h
      · exact absurd h3 h
      · simpa using h
    constructor
    · rcases hb : s.override_bin_bw with _ | b
      · dsimp only
        exact heq.symm
      · dsimp only
        split
        · exact heq.symm
        · exact heq.symm
    · intro b hb
      rw [hb]
      dsimp only
      split
      · rfl
      · next hcb =>
          simp only [ne_eq, not_not] at hcb
          exact hcb.symm

/-- A SPECT channel's STATUS always carries its bin count and bin width. -/
theorem spect_bins_reported (env : Env) (fe : Frontend) (c : Channel)
    (skip : Bool) (hd : c.demod_type = SPECT_DEMOD) :
    SField.binCount c.spectrum.bin_count
        ∈ (encode_radio_status_ex env fe c skip).1 ∧
    SField.noncoherentBinBw c.spectrum.bin_bw
        ∈ (encode_radio_status_ex env fe c skip).1 := by
  have hm := spect_mode_fields env c skip hd
  have henc : (encode_radio_status_ex env fe c skip).1
      = statusHead env fe c ++ statusModeFields env c skip ++
        statusTailFields env
          (statusTailChan env (spectPolledChan env c skip)) := rfl
  constructor <;> (rw [henc, hm]; simp)

/-- C1 counterexample: on a non-spectrum (linear) channel, an explicit
`LOW_EDGE = -1500` followed by a `PRESET` whose bundle sets the low edge to
`-3000` leaves `-3000` in effect — the deferred-override machinery only runs
for `SPECT_DEMOD` channels, so the preset *does* clobber the explicit tag,
contradicting the claim's "for every channel regardless of demod_type". -/
theorem C1_counterexample :
    chan0.demod_type ≠ SPECT_DEMOD ∧
    (decode_radio_commands_with_source env1 chan0
        [Tag.lowEdge (-1500), Tag.preset "ft8"]).1.filter.min_IF = -3000 ∧
    ((-3000 : ℚ) ≠ -1500) := by
  refine ⟨by norm_num [chan0, LINEAR_DEMOD, SPECT_DEMOD], ?_, by norm_num⟩
  unfold decode_radio_commands_with_source
  rw [(decodeFinish_preserves (processTags env1 (initDecodeSt env1 chan0)
    [Tag.lowEdge (-1500), Tag.preset "ft8"])).2.2.2.2.2.2.2.2.1]
  show (applyTag env1 (applyTag env1 (initDecodeSt env1 chan0)
    (Tag.lowEdge (-1500))) (Tag.preset "ft8")).chan.filter.min_IF = -3000
  simp only [applyTag, loadpreset, env1, env0]
  repeat' split
  all_goals rfl

/-- C1 (amended): for a channel that is a spectrum channel after the packet
is processed, explicit `BIN_COUNT` (positive) and `NONCOHERENT_BIN_BW` tags
followed by a later `PRESET` are the values in effect after the whole packet
— the preset cannot clobber them because they are applied after the tag
loop — and the next STATUS reports exactly these values. -/
theorem C1_spect_overrides_survive_preset (env : Env) (fe : Frontend)
    (chan : Channel) (n : ℤ) (b : ℚ) (p : String) (skip : Bool)
    (hn : 0 < n)
    (hd : (decode_radio_commands_with_source env chan
      [Tag.binCount n, Tag.noncoherentBinBw b, Tag.preset p]).1.demod_type
        = SPECT_DEMOD) :
    (decode_radio_commands_with_source env chan
        [Tag.binCount n, Tag.noncoherentBinBw b,
         Tag.preset p]).1.spectrum.bin_count = n ∧
    (decode_radio_commands_with_source env chan
        [Tag.binCount n, Tag.noncoherentBinBw b,
         Tag.preset p]).1.spectrum.bin_bw = b ∧
    SField.binCount n ∈ (encode_radio_status_ex env fe
        (decode_radio_commands_with_source env chan
          [Tag.binCount n, Tag.noncoherentBinBw b, Tag.preset p]).1 skip).1 ∧
    SField.noncoherentBinBw b ∈ (encode_radio_status_ex env fe
        (decode_radio_commands_with_source env chan
          [Tag.binCount n, Tag.noncoherentBinBw b, Tag.preset p]).1 skip).1 := by
  have hp := decodeFinish_preserves (processTags env (initDecodeSt env chan)
    [Tag.binCount n, Tag.noncoherentBinBw b, Tag.preset p])
  have hdemod : (processTags env (initDecodeSt env chan)
      [Tag.binCount n, Tag.noncoherentBinBw b, Tag.preset p]).chan.demod_type
      = SPECT_DEMOD := hp.2.2.2.2.2.2.2.1.symm.trans hd
  have hovp := applyTag_preset_overrides env
    (applyTag env (applyTag env (initDecodeSt env chan) (Tag.binCount n))
      (Tag.noncoherentBinBw b)) p
  have hov1 : (applyTag env (initDecodeSt env chan)
      (Tag.binCount n)).override_bin_count = n := by
    simp only [applyTag]
    rw [if_pos hn]
  have hovc : (processTags env (initDecodeSt env chan)
      [Tag.binCount n, Tag.noncoherentBinBw b,
       Tag.preset p]).override_bin_count = n := hovp.1.trans hov1
  have hovb : (processTags env (initDecodeSt env chan)
      [Tag.binCount n, Tag.noncoherentBinBw b,
       Tag.preset p]).override_bin_bw = some b := hovp.2.1.trans rfl
  have hovh : (processTags env (initDecodeSt env chan)
      [Tag.binCount n, Tag.noncoherentBinBw b,
       Tag.preset p]).has_overrides = true := hovp.2.2.trans rfl
  have hres := applyOverrides_result _ hovh hdemod (by rw [hovc]; exact hn)
  have hbc : (decode_radio_commands_with_source env chan
      [Tag.binCount n, Tag.noncoherentBinBw b,
       Tag.preset p]).1.spectrum.bin_count = n := by
    rw [show (decode_radio_commands_with_source env chan
        [Tag.binCount n, Tag.noncoherentBinBw b, Tag.preset p]).1.spectrum
        = (applyOverrides (processTags env (initDecodeSt env chan)
          [Tag.binCount n, Tag.noncoherentBinBw b, Tag.preset p])).1.spectrum
        from hp.2.2.2.2.2.2.2.2.2.2.2]
    rw [hres.1, hovc]
  have hbb : (decode_radio_commands_with_source env chan
      [Tag.binCount n, Tag.noncoherentBinBw b,
       Tag.preset p]).1.spectrum.bin_bw = b := by
    rw [show (decode_radio_commands_with_source env chan
        [Tag.binCount n, Tag.noncoherentBinBw b, Tag.preset p]).1.spectrum
        = (applyOverrides (processTags env (initDecodeSt env chan)
          [Tag.binCount n, Tag.noncoherentBinBw b, Tag.preset p])).1.spectrum
        from hp.2.2.2.2.2.2.2.2.2.2.2]
    exact hres.2 b hovb
  have hrep := spect_bins_reported env fe _ skip hd
  refine ⟨hbc, hbb, ?_, ?_⟩
  · rw [hbc] at hrep
    exact hrep.1
  · rw [hbb] at hrep
    exact hrep.2

/-- C1 witness: a spectrum channel given `BIN_COUNT = 256`,
`NONCOHERENT_BIN_BW = 100` and a later preset whose bundle says 128/40 ends
up at 256 and 100 — the overrides win. -/
theorem C1_spect_overrides_survive_preset_witness :
    (0 : ℤ) < 256 ∧
    (decode_radio_commands_with_source env1
        { chan0 with demod_type := SPECT_DEMOD }
        [Tag.binCount 256, Tag.noncoherentBinBw 100,
         Tag.preset "ft8"]).1.demod_type = SPECT_DEMOD ∧
    (decode_radio_commands_with_source env1
        { chan0 with demod_type := SPECT_DEMOD }
        [Tag.binCount 256, Tag.noncoherentBinBw 100,
         Tag.preset "ft8"]).1.spectrum.bin_count = 256 ∧
    (decode_radio_commands_with_source env1
        { chan0 with demod_type := SPECT_DEMOD }
        [Tag.binCount 256, Tag.noncoherentBinBw 100,
         Tag.preset "ft8"]).1.spectrum.bin_bw = 100 := by
  have hd : (decode_radio_commands_with_source env1
      { chan0 with demod_type := SPECT_DEMOD }
      [Tag.binCount 256, Tag.noncoherentBinBw 100,
       Tag.preset "ft8"]).1.demod_type = SPECT_DEMOD := rfl
  obtain ⟨ha, hb, _, _⟩ := C1_spect_overrides_survive_preset env1 fe0
    { chan0 with demod_type := SPECT_DEMOD } 256 100 "ft8" false
    (by norm_num) hd
  exact ⟨by norm_num, hd, ha, hb⟩

end KA9Q
